import Mathlib

/-!
Verification development for the plain fin-tube counter-flow air condenser
rating engine exercised by `docs/examples/vapor_compression/ex03_air_condenser.ipynb`.
The notebook is glue code; the rating engine itself
(`hvac.heat_exchanger.recuperator.fintube.continuous_fin.PlainFinTubeCounterFlowAirCondenser`)
is not part of the observed sources, so every definition below is modelled
from the specification of that engine.  All physical quantities are carried
as exact rationals; the moist-air and refrigerant property backends and the
heat-transfer correlation set are external collaborators and appear as
fields of an explicit `FluidModel` record.
-/

namespace Hvac

/-- Modelled from the spec: the error taxonomy of §7 of the specification
(the engine's exception classes are not in the observed sources). -/
inductive HvacError where
  | invalidGeometry
  | propertyLookup
  | infeasibleRegion
  | ratingNotConverged
  | ratingInfeasible
  | resultUnavailable
  deriving DecidableEq

/-- Modelled from the spec: the immutable fin-tube coil geometry (§3);
field names follow the notebook's constructor call. -/
structure Geometry where
  W_fro : ℚ
  H_fro : ℚ
  N_rows : ℕ
  S_trv : ℚ
  S_lon : ℚ
  D_int : ℚ
  D_ext : ℚ
  t_fin : ℚ
  N_fin : ℚ
  k_fin : ℚ
  deriving DecidableEq

/-- Modelled from the spec: geometry invariant of §3 — all lengths strictly
positive, row count at least 1, and fin pitch (the reciprocal of the fin
density `N_fin`) strictly greater than the fin thickness. -/
def Geometry.valid (g : Geometry) : Prop :=
  0 < g.W_fro ∧ 0 < g.H_fro ∧ 1 ≤ g.N_rows ∧ 0 < g.S_trv ∧ 0 < g.S_lon ∧
    0 < g.D_int ∧ 0 < g.D_ext ∧ 0 < g.t_fin ∧ 0 < g.N_fin ∧
    g.t_fin * g.N_fin < 1

instance (g : Geometry) : Decidable g.valid := by
  unfold Geometry.valid
  infer_instance

/-- Modelled from the spec: total available flow length of the coil,
row count × row depth (the longitudinal tube pitch), §4.3 step 2. -/
def L_avail (g : Geometry) : ℚ := (g.N_rows : ℚ) * g.S_lon

/-- Modelled from the spec: a resolved moist-air state (FlowState of §3);
`h` is the specific enthalpy, `W` the humidity ratio. -/
structure AirState where
  Tdb : ℚ
  W : ℚ
  h : ℚ
  deriving DecidableEq

/-- Modelled from the spec: a resolved refrigerant state (FlowState of §3). -/
structure RfgState where
  T : ℚ
  P : ℚ
  h : ℚ
  deriving DecidableEq

/-- Modelled from the spec: the external Fluid State Provider (§4.1) and
Correlation Set (§2 item 3), both absent from the observed sources, are
represented by this record of pure property and correlation functions:
saturation data as functions of pressure, constant specific heats for the
single-phase branches, an air-density curve for the pressure-drop module,
and `UA` correlation coefficients (overall conductance per unit frontal
area and unit flow length) for the three phase regimes. -/
structure FluidModel where
  Tsat : ℚ → ℚ
  h_sat_vap : ℚ → ℚ
  h_sat_liq : ℚ → ℚ
  cp_vap : ℚ
  cp_liq : ℚ
  cp_air : ℚ
  rho_air : ℚ → ℚ
  UA_dsh : ℚ
  UA_cnd : ℚ
  UA_sc : ℚ
  f_fric : ℚ
  K_ent : ℚ

/-- Modelled from the spec: the three phase regimes of §2 item 4,
a fixed and exhaustive tagged variant (§9). -/
inductive Regime where
  | desuperheating
  | condensing
  | subcooling
  deriving DecidableEq

/-- Modelled from the spec: one axial segment of the exchanger (the Region
entity of §3) retained as a read-only result after a successful solve. -/
structure Region where
  regime : Regime
  rfg_in : RfgState
  rfg_out : RfgState
  air_in : AirState
  air_out : AirState
  rfg_m_dot : ℚ
  air_m_dot : ℚ
  L_flow : ℚ
  Q : ℚ
  deriving DecidableEq

/-- Modelled from the spec: the inputs of `solve` (§4.3), with the
notebook's keyword names. -/
structure SolveInput where
  air_in : AirState
  air_m_dot : ℚ
  rfg_in : RfgState
  rfg_m_dot : ℚ
  deriving DecidableEq

/-- Modelled from the spec: the cached result fields a successful solve
commits to the owning Condenser (§3, §4.3 step 4). -/
structure SolveResult where
  desuperheating_region : Region
  condensing_region : Region
  subcooling_region : Region
  Q_dot : ℚ
  dT_sc : ℚ
  air_out : AirState
  rfg_out : RfgState
  air_m_dot : ℚ
  rfg_m_dot : ℚ
  deriving DecidableEq

/-- Modelled from the spec: the long-lived Condenser entity (§3): a fixed
geometry plus the optional cached result of the last successful solve. -/
structure Condenser where
  geometry : Geometry
  result : Option SolveResult
  deriving DecidableEq

/-- Modelled from the spec: construction `Condenser(geometry)` validates the
geometry invariants and fails with `InvalidGeometryError` otherwise (§6). -/
def mkCondenser (g : Geometry) : Except HvacError Condenser :=
  if g.valid then .ok ⟨g, none⟩ else .error .invalidGeometry

/-- Absolute value on ℚ, written out so that it evaluates by kernel
reduction. -/
def rabs (x : ℚ) : ℚ := if x < 0 then -x else x

/-- Modelled from the spec: the smaller of the two capacity rates of a
region; in the condensing regime the refrigerant side is isothermal, so the
air stream is the limiting one (§4.2). -/
def Cmin (m : FluidModel) : Regime → ℚ → ℚ → ℚ
  | .desuperheating, rm, am =>
      if rm * m.cp_vap ≤ am * m.cp_air then rm * m.cp_vap else am * m.cp_air
  | .condensing, _, am => am * m.cp_air
  | .subcooling, rm, am =>
      if rm * m.cp_liq ≤ am * m.cp_air then rm * m.cp_liq else am * m.cp_air

/-- Modelled from the spec: NTU accumulated per unit flow length — the
regime's correlation coefficient times the frontal area, divided by the
smaller capacity rate (§4.2 rate equation; the correlation set is
external). -/
def kappa (m : FluidModel) (g : Geometry) (regime : Regime) (rm am : ℚ) : ℚ :=
  (match regime with
    | .desuperheating => m.UA_dsh
    | .condensing => m.UA_cnd
    | .subcooling => m.UA_sc) * g.W_fro * g.H_fro / Cmin m regime rm am

/-- Modelled from the spec: the balanced maximum heat rate of a counter-flow
region — smaller capacity rate times the entry temperature difference
(§4.2): the value `evaluate` approaches as the trial length grows. -/
def QmaxOf (m : FluidModel) (regime : Regime) (rfgIn : RfgState)
    (airIn : AirState) (rm am : ℚ) : ℚ :=
  Cmin m regime rm am * (rfgIn.T - airIn.Tdb)

/-- Modelled from the spec: closed-form counter-flow effectiveness as a
function of NTU (§4.2 allows a closed-form effectiveness relation; this is
the balanced counter-flow form, monotone from 0 to 1). -/
def effectiveness (NTU : ℚ) : ℚ := NTU / (1 + NTU)

/-- Modelled from the spec: heat rate achieved by a region of trial flow
length `L`: effectiveness at `NTU = kappa·L` times the balanced maximum
(§4.2 rate equation). -/
def regionQ (Qm k L : ℚ) : ℚ := Qm * effectiveness (k * L)

/-- Modelled from the spec: exit refrigerant state of a region after
removing heat `Q`: enthalpy drops by `Q/ṁ`; the temperature follows the
single-phase specific heat, or stays at saturation while condensing
(§4.2). -/
def rfgExit (m : FluidModel) (regime : Regime) (s : RfgState) (rm Q : ℚ) :
    RfgState :=
  match regime with
  | .desuperheating => ⟨s.T - Q / (rm * m.cp_vap), s.P, s.h - Q / rm⟩
  | .condensing => ⟨s.T, s.P, s.h - Q / rm⟩
  | .subcooling => ⟨s.T - Q / (rm * m.cp_liq), s.P, s.h - Q / rm⟩

/-- Modelled from the spec: air state after absorbing heat `Q` at constant
humidity ratio: enthalpy rises by `Q/ṁ`, dry-bulb temperature by
`Q/(ṁ·cp)` (§4.2 energy balance, sensible heating). -/
def airAfter (m : FluidModel) (a : AirState) (am Q : ℚ) : AirState :=
  ⟨a.Tdb + Q / (am * m.cp_air), a.W, a.h + Q / am⟩

/-- Modelled from the spec: the Region Model contract of §4.2 —
`evaluate(L) → (exitHot, exitCold, Q)`, a pure function of the entry
states, mass flow rates, regime and trial length. -/
def Region.evaluate (m : FluidModel) (g : Geometry) (regime : Regime)
    (rfgIn : RfgState) (airIn : AirState) (rm am L : ℚ) :
    RfgState × AirState × ℚ :=
  (rfgExit m regime rfgIn rm (regionQ (QmaxOf m regime rfgIn airIn rm am) (kappa m g regime rm am) L),
   airAfter m airIn am (regionQ (QmaxOf m regime rfgIn airIn rm am) (kappa m g regime rm am) L),
   regionQ (QmaxOf m regime rfgIn airIn rm am) (kappa m g regime rm am) L)

/-- Modelled from the spec: the flow length a region needs to transfer a
prescribed heat rate `Q` — the inverse of `regionQ` in `L`; `none` when the
duty reaches or exceeds the balanced maximum (the region is infeasible at
any finite length, `InfeasibleRegionError` of §7) or the data are
degenerate. -/
def requiredLength (Qm k Q : ℚ) : Option ℚ :=
  if 0 ≤ Q ∧ Q < Qm ∧ 0 < k then some (Q / (k * (Qm - Q))) else none

/-- Modelled from the spec: heat duty of the subcooling region for a trial
refrigerant exit enthalpy `x` (§4.3 step 2: boundary states fixed from the
refrigerant side alone). -/
def Q_sc (m : FluidModel) (inp : SolveInput) (x : ℚ) : ℚ :=
  inp.rfg_m_dot * (m.h_sat_liq inp.rfg_in.P - x)

/-- Modelled from the spec: heat duty of the condensing region, fixed by
the saturation boundary states at the operating pressure (§4.3 step 1). -/
def Q_cnd (m : FluidModel) (inp : SolveInput) : ℚ :=
  inp.rfg_m_dot * (m.h_sat_vap inp.rfg_in.P - m.h_sat_liq inp.rfg_in.P)

/-- Modelled from the spec: heat duty of the desuperheating region, fixed
by the inlet and the saturated-vapor boundary (§4.3 step 1). -/
def Q_dsh (m : FluidModel) (inp : SolveInput) : ℚ :=
  inp.rfg_m_dot * (inp.rfg_in.h - m.h_sat_vap inp.rfg_in.P)

/-- Modelled from the spec: saturated-vapor boundary state at the operating
pressure (taken as the refrigerant inlet pressure, §4.3 step 1). -/
def satVapState (m : FluidModel) (inp : SolveInput) : RfgState :=
  ⟨m.Tsat inp.rfg_in.P, inp.rfg_in.P, m.h_sat_vap inp.rfg_in.P⟩

/-- Modelled from the spec: saturated-liquid boundary state at the
operating pressure (§4.3 step 1). -/
def satLiqState (m : FluidModel) (inp : SolveInput) : RfgState :=
  ⟨m.Tsat inp.rfg_in.P, inp.rfg_in.P, m.h_sat_liq inp.rfg_in.P⟩

/-- Modelled from the spec: air state after the subcooling region (air
enters the coil at the subcooling end and flows counter to the
refrigerant, §4.3 step 2). -/
def air1 (m : FluidModel) (inp : SolveInput) (x : ℚ) : AirState :=
  airAfter m inp.air_in inp.air_m_dot (Q_sc m inp x)

/-- Modelled from the spec: air state after the condensing region. -/
def air2 (m : FluidModel) (inp : SolveInput) (x : ℚ) : AirState :=
  airAfter m (air1 m inp x) inp.air_m_dot (Q_cnd m inp)

/-- Modelled from the spec: air state leaving the coil, after the
desuperheating region. -/
def air3 (m : FluidModel) (inp : SolveInput) (x : ℚ) : AirState :=
  airAfter m (air2 m inp x) inp.air_m_dot (Q_dsh m inp)

/-- Modelled from the spec: refrigerant exit state for a trial exit
enthalpy `x`: subcooled liquid at the operating pressure. -/
def rfgOutState (m : FluidModel) (inp : SolveInput) (x : ℚ) : RfgState :=
  ⟨m.Tsat inp.rfg_in.P - (m.h_sat_liq inp.rfg_in.P - x) / m.cp_liq,
   inp.rfg_in.P, x⟩

/-- Modelled from the spec: §4.3 step 3 — for a trial refrigerant exit
enthalpy `x`, evaluate the three Region Models in sequence along the air
path and return the three required flow lengths (desuperheating,
condensing, subcooling), or `none` if some region is infeasible at the
trial point. -/
def trialLengths (m : FluidModel) (g : Geometry) (inp : SolveInput) (x : ℚ) :
    Option (ℚ × ℚ × ℚ) :=
  (requiredLength (QmaxOf m .subcooling (satLiqState m inp) inp.air_in inp.rfg_m_dot inp.air_m_dot)
      (kappa m g .subcooling inp.rfg_m_dot inp.air_m_dot) (Q_sc m inp x)).bind fun Lsc =>
  (requiredLength (QmaxOf m .condensing (satVapState m inp) (air1 m inp x) inp.rfg_m_dot inp.air_m_dot)
      (kappa m g .condensing inp.rfg_m_dot inp.air_m_dot) (Q_cnd m inp)).bind fun Lcnd =>
  (requiredLength (QmaxOf m .desuperheating inp.rfg_in (air2 m inp x) inp.rfg_m_dot inp.air_m_dot)
      (kappa m g .desuperheating inp.rfg_m_dot inp.air_m_dot) (Q_dsh m inp)).map fun Ldsh =>
  (Ldsh, Lcnd, Lsc)

/-- Modelled from the spec: the root-finding residual of §4.3 step 3 — sum
of the three computed lengths minus the available flow length. -/
def residual (m : FluidModel) (g : Geometry) (inp : SolveInput) (x : ℚ) :
    Option ℚ :=
  (trialLengths m g inp x).map fun t => t.1 + t.2.1 + t.2.2 - L_avail g

/-- Modelled from the spec: lower end of the root bracket — the exit
enthalpy at which the refrigerant would leave at the entering air
temperature (the physical limit of subcooling). -/
def h_low (m : FluidModel) (inp : SolveInput) : ℚ :=
  m.h_sat_liq inp.rfg_in.P - m.cp_liq * (m.Tsat inp.rfg_in.P - inp.air_in.Tdb)

/-- Modelled from the spec: bracketed bisection of §4.3 step 3 and §9 on
the trial exit enthalpy, with a fixed iteration budget; an infeasible trial
(`none` residual, too much subcooling asked of the coil) adjusts the
bracket like a positive residual; exhausting the budget reports
`RatingNotConvergedError`. -/
def bisect (f : ℚ → Option ℚ) (tol : ℚ) : ℕ → ℚ → ℚ → Except HvacError ℚ
  | 0, _, _ => .error .ratingNotConverged
  | n + 1, lo, hi =>
    match f ((lo + hi) / 2) with
    | none => bisect f tol n ((lo + hi) / 2) hi
    | some r =>
      if rabs r ≤ tol then .ok ((lo + hi) / 2)
      else if 0 < r then bisect f tol n ((lo + hi) / 2) hi
      else bisect f tol n lo ((lo + hi) / 2)

/-- Modelled from the spec: the result record committed after a successful
solve: the three regions in flow order with their chained entry/exit
states, the aggregate heat rejection rate, the degree of subcooling, and
the exit states (§4.3 step 4). -/
def mkResult (m : FluidModel) (inp : SolveInput) (x Ldsh Lcnd Lsc : ℚ) :
    SolveResult where
  desuperheating_region :=
    { regime := .desuperheating
      rfg_in := inp.rfg_in
      rfg_out := satVapState m inp
      air_in := air2 m inp x
      air_out := air3 m inp x
      rfg_m_dot := inp.rfg_m_dot
      air_m_dot := inp.air_m_dot
      L_flow := Ldsh
      Q := Q_dsh m inp }
  condensing_region :=
    { regime := .condensing
      rfg_in := satVapState m inp
      rfg_out := satLiqState m inp
      air_in := air1 m inp x
      air_out := air2 m inp x
      rfg_m_dot := inp.rfg_m_dot
      air_m_dot := inp.air_m_dot
      L_flow := Lcnd
      Q := Q_cnd m inp }
  subcooling_region :=
    { regime := .subcooling
      rfg_in := satLiqState m inp
      rfg_out := rfgOutState m inp x
      air_in := inp.air_in
      air_out := air1 m inp x
      rfg_m_dot := inp.rfg_m_dot
      air_m_dot := inp.air_m_dot
      L_flow := Lsc
      Q := Q_sc m inp x }
  Q_dot := inp.rfg_m_dot * (inp.rfg_in.h - x)
  dT_sc := (m.h_sat_liq inp.rfg_in.P - x) / m.cp_liq
  air_out := air3 m inp x
  rfg_out := rfgOutState m inp x
  air_m_dot := inp.air_m_dot
  rfg_m_dot := inp.rfg_m_dot

/-- Modelled from the spec: the Condenser Solver of §4.3.  Checks the input
constraints (superheated refrigerant inlet, positive mass flow rates, a
non-degenerate bracket), rejects a coil that cannot reach saturated liquid
even with zero subcooling (`RatingInfeasibleError`), then drives the length
residual to within `tol` by bisection on the refrigerant exit enthalpy
inside a fixed iteration budget `fuel`. -/
def solveCore (m : FluidModel) (g : Geometry) (tol : ℚ) (fuel : ℕ)
    (inp : SolveInput) : Except HvacError SolveResult :=
  if inp.rfg_in.h ≤ m.h_sat_vap inp.rfg_in.P ∨ inp.rfg_m_dot ≤ 0 ∨
      inp.air_m_dot ≤ 0 ∨ m.h_sat_liq inp.rfg_in.P ≤ h_low m inp then
    .error .ratingInfeasible
  else
    match residual m g inp (m.h_sat_liq inp.rfg_in.P) with
    | none => .error .ratingInfeasible
    | some rTop =>
      if 0 ≤ rTop then .error .ratingInfeasible
      else
        match bisect (residual m g inp) tol fuel (h_low m inp)
            (m.h_sat_liq inp.rfg_in.P) with
        | .error e => .error e
        | .ok x =>
          match trialLengths m g inp x with
          | none => .error .ratingInfeasible
          | some L => .ok (mkResult m inp x L.1 L.2.1 L.2.2)

/-- Modelled from the spec: `Condenser.solve` (§4.3, §6): returns the exit
states or an explicit error, and the updated Condenser — the whole result
record on success, an invalidated (empty) result cache on failure. -/
def Condenser.solve (m : FluidModel) (tol : ℚ) (fuel : ℕ) (c : Condenser)
    (inp : SolveInput) :
    Except HvacError (AirState × RfgState) × Condenser :=
  match solveCore m c.geometry tol fuel inp with
  | .ok r => (.ok (r.air_out, r.rfg_out), { c with result := some r })
  | .error e => (.error e, { c with result := none })

/-- Modelled from the spec: read-only accessor for the heat rejection rate,
valid only after a successful solve (§6, §7). -/
def Condenser.Q_dot (c : Condenser) : Except HvacError ℚ :=
  match c.result with
  | some r => .ok r.Q_dot
  | none => .error .resultUnavailable

/-- Modelled from the spec: read-only accessor for the degree of
subcooling, valid only after a successful solve (§6, §7). -/
def Condenser.dT_sc (c : Condenser) : Except HvacError ℚ :=
  match c.result with
  | some r => .ok r.dT_sc
  | none => .error .resultUnavailable

/-- Modelled from the spec: read-only accessor for a region's resolved flow
length, valid only after a successful solve (§6, §7). -/
def Condenser.L_flow (c : Condenser) (reg : Regime) : Except HvacError ℚ :=
  match c.result with
  | some r => .ok (match reg with
      | .desuperheating => r.desuperheating_region.L_flow
      | .condensing => r.condensing_region.L_flow
      | .subcooling => r.subcooling_region.L_flow)
  | none => .error .resultUnavailable

/-- Modelled from the spec: the air-side pressure drop aggregation of §4.4
(entrance/exit effects, friction per row, and flow acceleration from the
density change), computed from the solved states; the friction and
entrance coefficients come from the external correlation set. -/
def airDP (m : FluidModel) (g : Geometry) (r : SolveResult) : ℚ :=
  (m.K_ent * (r.air_m_dot / (g.W_fro * g.H_fro)) ^ 2 / m.rho_air r.subcooling_region.air_in.Tdb) +
  (m.f_fric * (g.N_rows : ℚ) * (r.air_m_dot / (g.W_fro * g.H_fro)) ^ 2 / m.rho_air r.subcooling_region.air_in.Tdb) +
  ((r.air_m_dot / (g.W_fro * g.H_fro)) ^ 2 * (1 / m.rho_air r.air_out.Tdb - 1 / m.rho_air r.subcooling_region.air_in.Tdb))

/-- Modelled from the spec: the pressure-drop module as exposed on the
Condenser; fails with `ResultUnavailableError` before any successful solve
(§4.4). -/
def Condenser.air_dP (c : Condenser) (m : FluidModel) : Except HvacError ℚ :=
  match c.result with
  | some r => .ok (airDP m c.geometry r)
  | none => .error .resultUnavailable

/-- Modelled from the spec: energy balance of one region — heat lost by the
hot stream equals heat gained by the cold stream (§4.2). -/
def regionBalanced (reg : Region) : Prop :=
  reg.rfg_m_dot * (reg.rfg_in.h - reg.rfg_out.h)
    = reg.air_m_dot * (reg.air_out.h - reg.air_in.h)

/-! ### A concrete instance used as evaluation witness

A deliberately simple, fully rational fluid model and coil, small enough
that the whole solver run reduces inside the kernel. -/

/-- Modelled from the spec: a concrete instance of the external property
and correlation backend with constant specific heats and constant
saturation data, used to exercise the solver on closed rational inputs. -/
def demoModel : FluidModel where
  Tsat := fun _ => 50
  h_sat_vap := fun _ => 100
  h_sat_liq := fun _ => 60
  cp_vap := 1
  cp_liq := 1
  cp_air := 1
  rho_air := fun T => 6 / 5 - T / 500
  UA_dsh := 1
  UA_cnd := 10
  UA_sc := 1
  f_fric := 1 / 10
  K_ent := 1 / 2

/-- A valid 5-row demonstration coil. -/
def demoGeom : Geometry where
  W_fro := 1
  H_fro := 1
  N_rows := 5
  S_trv := 1 / 40
  S_lon := 1 / 5
  D_int := 1 / 100
  D_ext := 1 / 50
  t_fin := 1 / 1000
  N_fin := 100
  k_fin := 237

/-- The same coil with the row count reduced to 1. -/
def demoGeomOneRow : Geometry := { demoGeom with N_rows := 1 }

/-- Demonstration operating conditions: superheated refrigerant in, cooler
air in, both mass flow rates positive. -/
def demoInp : SolveInput where
  air_in := ⟨20, 1 / 100, 20⟩
  air_m_dot := 10
  rfg_in := ⟨60, 13, 110⟩
  rfg_m_dot := 1

/-- The exact result of the demonstration solve (tolerance 1/4, budget 40):
bisection stops at exit enthalpy 105/2 after two iterations. -/
def demoResult : SolveResult := mkResult demoModel demoInp (105 / 2) (40 / 101) (16 / 101) (1 / 3)

/-! ### Helper lemmas -/

theorem requiredLength_some {Qm k Q L : ℚ}
    (h : requiredLength Qm k Q = some L) :
    0 ≤ Q ∧ Q < Qm ∧ 0 < k ∧ L = Q / (k * (Qm - Q)) := by
  unfold requiredLength at h
  split at h
  · next hc => exact ⟨hc.1, hc.2.1, hc.2.2, (Option.some_inj.mp h).symm⟩
  · exact absurd h (by simp)

theorem requiredLength_nonneg {Qm k Q L : ℚ}
    (h : requiredLength Qm k Q = some L) : 0 ≤ L := by
  obtain ⟨hQ, hlt, hk, hL⟩ := requiredLength_some h
  have hden : 0 < k * (Qm - Q) := by
    have : 0 < Qm - Q := by linarith
    positivity
  rw [hL]
  positivity

theorem trialLengths_some_inv {m : FluidModel} {g : Geometry}
    {inp : SolveInput} {x : ℚ} {t : ℚ × ℚ × ℚ}
    (h : trialLengths m g inp x = some t) :
    requiredLength
        (QmaxOf m .subcooling (satLiqState m inp) inp.air_in inp.rfg_m_dot inp.air_m_dot)
        (kappa m g .subcooling inp.rfg_m_dot inp.air_m_dot) (Q_sc m inp x)
      = some t.2.2
    ∧ requiredLength
        (QmaxOf m .condensing (satVapState m inp) (air1 m inp x) inp.rfg_m_dot inp.air_m_dot)
        (kappa m g .condensing inp.rfg_m_dot inp.air_m_dot) (Q_cnd m inp)
      = some t.2.1
    ∧ requiredLength
        (QmaxOf m .desuperheating inp.rfg_in (air2 m inp x) inp.rfg_m_dot inp.air_m_dot)
        (kappa m g .desuperheating inp.rfg_m_dot inp.air_m_dot) (Q_dsh m inp)
      = some t.1 := by
  unfold trialLengths at h
  rcases Option.bind_eq_some.mp h with ⟨Lsc, h1, h2⟩
  rcases Option.bind_eq_some.mp h2 with ⟨Lcnd, h3, h4⟩
  rcases Option.map_eq_some'.mp h4 with ⟨Ldsh, h5, h6⟩
  subst h6
  exact ⟨h1, h3, h5⟩

theorem bisect_ok_spec (f : ℚ → Option ℚ) (tol : ℚ) :
    ∀ (n : ℕ) (lo hi x : ℚ), bisect f tol n lo hi = .ok x →
      (∃ r, f x = some r ∧ rabs r ≤ tol) ∧ (lo < hi → lo < x ∧ x < hi) := by
  intro n
  induction n with
  | zero =>
    intro lo hi x h
    simp [bisect] at h
  | succ n ih =>
    intro lo hi x h
    rw [bisect] at h
    cases hf : f ((lo + hi) / 2) with
    | none =>
      rw [hf] at h
      simp only at h
      obtain ⟨hs, hm⟩ := ih _ _ _ h
      refine ⟨hs, fun hlh => ?_⟩
      have hm2 : (lo + hi) / 2 < hi := by linarith
      obtain ⟨ha, hb⟩ := hm hm2
      have : lo < (lo + hi) / 2 := by linarith
      exact ⟨lt_trans this ha, hb⟩
    | some r =>
      rw [hf] at h
      simp only at h
      split at h
      · next htol =>
        have hx : (lo + hi) / 2 = x := by
          exact Except.ok.inj h
        subst hx
        refine ⟨⟨r, hf, htol⟩, fun hlh => ⟨by linarith, by linarith⟩⟩
      · split at h
        · next hr =>
          obtain ⟨hs, hm⟩ := ih _ _ _ h
          refine ⟨hs, fun hlh => ?_⟩
          have hm2 : (lo + hi) / 2 < hi := by linarith
          obtain ⟨ha, hb⟩ := hm hm2
          have : lo < (lo + hi) / 2 := by linarith
          exact ⟨lt_trans this ha, hb⟩
        · next hr =>
          obtain ⟨hs, hm⟩ := ih _ _ _ h
          refine ⟨hs, fun hlh => ?_⟩
          have hm1 : lo < (lo + hi) / 2 := by linarith
          obtain ⟨ha, hb⟩ := hm hm1
          have : (lo + hi) / 2 < hi := by linarith
          exact ⟨ha, lt_trans hb this⟩

theorem solveCore_ok_inv {m : FluidModel} {g : Geometry} {tol : ℚ}
    {fuel : ℕ} {inp : SolveInput} {r : SolveResult}
    (h : solveCore m g tol fuel inp = .ok r) :
    ∃ x L,
      m.h_sat_vap inp.rfg_in.P < inp.rfg_in.h ∧ 0 < inp.rfg_m_dot
      ∧ 0 < inp.air_m_dot
      ∧ h_low m inp < m.h_sat_liq inp.rfg_in.P
      ∧ bisect (residual m g inp) tol fuel (h_low m inp)
          (m.h_sat_liq inp.rfg_in.P) = .ok x
      ∧ trialLengths m g inp x = some L
      ∧ r = mkResult m inp x L.1 L.2.1 L.2.2 := by
  unfold solveCore at h
  split at h
  · exact absurd h (by simp)
  next hguard =>
    push_neg at hguard
    obtain ⟨h1, h2, h3, h4⟩ := hguard
    split at h
    · exact absurd h (by simp)
    next rTop hTop =>
      split at h
      · exact absurd h (by simp)
      next hrT =>
        split at h
        · exact absurd h (by simp)
        next x hx =>
          split at h
          · exact absurd h (by simp)
          next L hL =>
            exact ⟨x, L, h1, h2, h3, h4, hx, hL, (Except.ok.inj h).symm⟩

theorem demo_solve_ok :
    solveCore demoModel demoGeom (1 / 4) 40 demoInp = .ok demoResult := by
  with_unfolding_all rfl

theorem solveCore_ok_tol {m : FluidModel} {g : Geometry} {tol : ℚ}
    {fuel : ℕ} {inp : SolveInput} {r : SolveResult}
    (h : solveCore m g tol fuel inp = .ok r) :
    rabs (r.desuperheating_region.L_flow + r.condensing_region.L_flow
      + r.subcooling_region.L_flow - L_avail g) ≤ tol := by
  obtain ⟨x, L, _, _, _, _, hbis, hL, hr⟩ := solveCore_ok_inv h
  obtain ⟨⟨res, hres, htol⟩, _⟩ := bisect_ok_spec _ _ _ _ _ _ hbis
  unfold residual at hres
  rw [hL] at hres
  simp only [Option.map_some'] at hres
  have hres' := Option.some_inj.mp hres
  subst hr
  simpa [mkResult, ← hres'] using htol

theorem solveCore_ok_nonneg {m : FluidModel} {g : Geometry} {tol : ℚ}
    {fuel : ℕ} {inp : SolveInput} {r : SolveResult}
    (h : solveCore m g tol fuel inp = .ok r) :
    0 ≤ r.desuperheating_region.L_flow ∧ 0 ≤ r.condensing_region.L_flow
      ∧ 0 ≤ r.subcooling_region.L_flow := by
  obtain ⟨x, L, _, _, _, _, hbis, hL, hr⟩ := solveCore_ok_inv h
  obtain ⟨hsc, hcnd, hdsh⟩ := trialLengths_some_inv hL
  subst hr
  exact ⟨by simpa [mkResult] using requiredLength_nonneg hdsh,
    by simpa [mkResult] using requiredLength_nonneg hcnd,
    by simpa [mkResult] using requiredLength_nonneg hsc⟩

theorem solveCore_ok_subcooled {m : FluidModel} {g : Geometry} {tol : ℚ}
    {fuel : ℕ} {inp : SolveInput} {r : SolveResult}
    (h : solveCore m g tol fuel inp = .ok r) :
    r.rfg_out.h < m.h_sat_liq inp.rfg_in.P := by
  obtain ⟨x, L, _, _, _, hbr, hbis, hL, hr⟩ := solveCore_ok_inv h
  obtain ⟨_, hmem⟩ := bisect_ok_spec _ _ _ _ _ _ hbis
  obtain ⟨_, hxhi⟩ := hmem hbr
  subst hr
  simpa [mkResult, rfgOutState] using hxhi

theorem effectiveness_mono {x y : ℚ} (hx : 0 ≤ x) (hxy : x ≤ y) :
    effectiveness x ≤ effectiveness y := by
  unfold effectiveness
  have h1 : (0 : ℚ) < 1 + x := by linarith
  have h2 : (0 : ℚ) < 1 + y := by linarith
  rw [div_le_div_iff₀ h1 h2]
  nlinarith

theorem effectiveness_le_one {x : ℚ} (hx : 0 ≤ x) : effectiveness x ≤ 1 := by
  unfold effectiveness
  rw [div_le_one (by linarith)]
  linarith

theorem regionQ_gap {Qm k L : ℚ} (hk : 0 < k) (hL : 0 ≤ L) :
    Qm - regionQ Qm k L = Qm / (1 + k * L) := by
  unfold regionQ effectiveness
  have hden : (0 : ℚ) < 1 + k * L := by nlinarith
  field_simp
  ring

/-! ### Claim theorems -/

/-- C1: for every successful call of `solve`, the total refrigerant-side
enthalpy drop times the refrigerant mass flow rate equals the total
air-side enthalpy rise times the air mass flow rate, and in each of the
three regions the heat lost by the hot stream equals the heat gained by
the cold stream (exact equalities in the rational model, hence within any
numerical tolerance). -/
theorem solve_energy_conservation (m : FluidModel) (g : Geometry) (tol : ℚ)
    (fuel : ℕ) (inp : SolveInput) (r : SolveResult)
    (h : solveCore m g tol fuel inp = .ok r) :
    inp.rfg_m_dot * (inp.rfg_in.h - r.rfg_out.h)
      = inp.air_m_dot * (r.air_out.h - inp.air_in.h)
    ∧ regionBalanced r.desuperheating_region
    ∧ regionBalanced r.condensing_region
    ∧ regionBalanced r.subcooling_region := by
  obtain ⟨x, L, _, hrm, ham, _, _, _, hr⟩ := solveCore_ok_inv h
  have hrm' : inp.rfg_m_dot ≠ 0 := ne_of_gt hrm
  have ham' : inp.air_m_dot ≠ 0 := ne_of_gt ham
  subst hr
  refine ⟨?_, ?_, ?_, ?_⟩ <;>
    simp only [mkResult, regionBalanced, air1, air2, air3, airAfter, Q_sc,
      Q_cnd, Q_dsh, satVapState, satLiqState, rfgOutState] <;>
    field_simp <;>
    ring

/-- C1 witness: the energy balance evaluated on the demonstration solve. -/
theorem solve_energy_conservation_witness :
    demoInp.rfg_m_dot * (demoInp.rfg_in.h - demoResult.rfg_out.h)
      = demoInp.air_m_dot * (demoResult.air_out.h - demoInp.air_in.h)
    ∧ regionBalanced demoResult.desuperheating_region
    ∧ regionBalanced demoResult.condensing_region
    ∧ regionBalanced demoResult.subcooling_region :=
  solve_energy_conservation demoModel demoGeom (1 / 4) 40 demoInp demoResult
    demo_solve_ok

/-- C2: for every successful call of `solve`, the sum of the three resolved
region flow lengths equals the geometry's total available flow length
(row count × row depth) to within the solver's residual tolerance. -/
theorem solve_length_conservation (m : FluidModel) (g : Geometry) (tol : ℚ)
    (fuel : ℕ) (inp : SolveInput) (r : SolveResult)
    (h : solveCore m g tol fuel inp = .ok r) :
    rabs (r.desuperheating_region.L_flow + r.condensing_region.L_flow
      + r.subcooling_region.L_flow - L_avail g) ≤ tol :=
  solveCore_ok_tol h

/-- C2 witness: the length budget of the demonstration solve
(40/101 + 16/101 + 1/3 differs from the available 1 by 34/303 ≤ 1/4). -/
theorem solve_length_conservation_witness :
    rabs (demoResult.desuperheating_region.L_flow
      + demoResult.condensing_region.L_flow
      + demoResult.subcooling_region.L_flow - L_avail demoGeom) ≤ 1 / 4 :=
  solve_length_conservation demoModel demoGeom (1 / 4) 40 demoInp demoResult
    demo_solve_ok

/-- C3: for a fixed pair of entry states, fixed mass flow rates and fixed
regime, the heat rate returned by `Region.evaluate` is a function of the
trial length alone (determinism: it coincides with the closed form
`regionQ`), is non-decreasing in the trial length, never exceeds the
balanced maximum, and approaches the balanced maximum as the length grows
without bound. -/
theorem region_evaluate_monotone (m : FluidModel) (g : Geometry)
    (regime : Regime) (rfgIn : RfgState) (airIn : AirState) (rm am : ℚ)
    (hk : 0 < kappa m g regime rm am)
    (hQ : 0 ≤ QmaxOf m regime rfgIn airIn rm am) :
    (∀ L, (Region.evaluate m g regime rfgIn airIn rm am L).2.2
        = regionQ (QmaxOf m regime rfgIn airIn rm am)
            (kappa m g regime rm am) L)
    ∧ (∀ L1 L2, 0 ≤ L1 → L1 ≤ L2 →
        (Region.evaluate m g regime rfgIn airIn rm am L1).2.2
          ≤ (Region.evaluate m g regime rfgIn airIn rm am L2).2.2)
    ∧ (∀ L, 0 ≤ L →
        (Region.evaluate m g regime rfgIn airIn rm am L).2.2
          ≤ QmaxOf m regime rfgIn airIn rm am)
    ∧ (∀ e, 0 < e → ∃ L0, 0 ≤ L0 ∧ ∀ L, L0 ≤ L →
        QmaxOf m regime rfgIn airIn rm am
          - (Region.evaluate m g regime rfgIn airIn rm am L).2.2 ≤ e) := by
  set k := kappa m g regime rm am with hkdef
  set Qm := QmaxOf m regime rfgIn airIn rm am with hQdef
  have hproj : ∀ L,
      (Region.evaluate m g regime rfgIn airIn rm am L).2.2 = regionQ Qm k L :=
    fun L => rfl
  refine ⟨hproj, ?_, ?_, ?_⟩
  · intro L1 L2 h1 h12
    rw [hproj, hproj]
    unfold regionQ
    have : effectiveness (k * L1) ≤ effectiveness (k * L2) :=
      effectiveness_mono (by positivity) (by nlinarith)
    exact mul_le_mul_of_nonneg_left this hQ
  · intro L hL
    rw [hproj]
    unfold regionQ
    have := effectiveness_le_one (show (0 : ℚ) ≤ k * L by positivity)
    exact mul_le_of_le_one_right hQ this
  · intro e he
    refine ⟨max 0 (Qm / (k * e)), le_max_left _ _, ?_⟩
    intro L hL
    have hL0 : 0 ≤ L := le_trans (le_max_left _ _) hL
    rw [hproj, regionQ_gap hk hL0]
    have hden : (0 : ℚ) < 1 + k * L := by nlinarith
    rw [div_le_iff₀ hden]
    have h2 : Qm / (k * e) ≤ L := le_trans (le_max_right _ _) hL
    have hke : (0 : ℚ) < k * e := by positivity
    have h3 : Qm ≤ L * (k * e) := (div_le_iff₀ hke).mp h2
    nlinarith

/-- C3 witness: the subcooling region of the demonstration model, with
positive NTU coefficient and non-negative balanced maximum. -/
theorem region_evaluate_monotone_witness :
    (0 : ℚ) < kappa demoModel demoGeom .subcooling 1 10
    ∧ (0 : ℚ) ≤ QmaxOf demoModel .subcooling (satLiqState demoModel demoInp)
        demoInp.air_in 1 10
    ∧ ((∀ L, (Region.evaluate demoModel demoGeom .subcooling
            (satLiqState demoModel demoInp) demoInp.air_in 1 10 L).2.2
          = regionQ (QmaxOf demoModel .subcooling (satLiqState demoModel demoInp)
              demoInp.air_in 1 10)
              (kappa demoModel demoGeom .subcooling 1 10) L)
      ∧ (∀ L1 L2, 0 ≤ L1 → L1 ≤ L2 →
          (Region.evaluate demoModel demoGeom .subcooling
              (satLiqState demoModel demoInp) demoInp.air_in 1 10 L1).2.2
            ≤ (Region.evaluate demoModel demoGeom .subcooling
              (satLiqState demoModel demoInp) demoInp.air_in 1 10 L2).2.2)
      ∧ (∀ L, 0 ≤ L →
          (Region.evaluate demoModel demoGeom .subcooling
              (satLiqState demoModel demoInp) demoInp.air_in 1 10 L).2.2
            ≤ QmaxOf demoModel .subcooling (satLiqState demoModel demoInp)
                demoInp.air_in 1 10)
      ∧ (∀ e, 0 < e → ∃ L0, 0 ≤ L0 ∧ ∀ L, L0 ≤ L →
          QmaxOf demoModel .subcooling (satLiqState demoModel demoInp)
              demoInp.air_in 1 10
            - (Region.evaluate demoModel demoGeom .subcooling
                (satLiqState demoModel demoInp) demoInp.air_in 1 10 L).2.2
            ≤ e)) :=
  ⟨by with_unfolding_all decide, by with_unfolding_all decide,
    region_evaluate_monotone demoModel demoGeom .subcooling
      (satLiqState demoModel demoInp) demoInp.air_in 1 10
      (by with_unfolding_all decide) (by with_unfolding_all decide)⟩

/-- C4: `solve` is deterministic and leaks no hidden state between calls:
running it a second time with identical inputs, on the Condenser produced
by the first run, returns exactly the first run's output and state (the
computation reads only the immutable geometry, so this also covers the
freshly constructed Condenser of the claim). -/
theorem solve_idempotent (m : FluidModel) (tol : ℚ) (fuel : ℕ)
    (c : Condenser) (inp : SolveInput) :
    Condenser.solve m tol fuel (Condenser.solve m tol fuel c inp).2 inp
      = Condenser.solve m tol fuel c inp := by
  unfold Condenser.solve
  cases h : solveCore m c.geometry tol fuel inp with
  | ok r => simp [h]
  | error e => simp [h]

/-- C6: the cached result fields are updated atomically: a successful
solve commits the whole result record in one assignment and reports the
exit states, and any failing solve reports an explicit error and leaves
the result cache invalidated (empty), never a partial result. -/
theorem solve_atomic (m : FluidModel) (tol : ℚ) (fuel : ℕ) (c : Condenser)
    (inp : SolveInput) :
    (∃ r, solveCore m c.geometry tol fuel inp = .ok r
      ∧ (Condenser.solve m tol fuel c inp).1 = .ok (r.air_out, r.rfg_out)
      ∧ (Condenser.solve m tol fuel c inp).2 = { c with result := some r })
    ∨ (∃ e, (Condenser.solve m tol fuel c inp).1 = .error e
      ∧ (Condenser.solve m tol fuel c inp).2 = { c with result := none }) := by
  cases h : solveCore m c.geometry tol fuel inp with
  | ok r =>
    exact .inl ⟨r, rfl, by simp [Condenser.solve, h], by simp [Condenser.solve, h]⟩
  | error e =>
    exact .inr ⟨e, by simp [Condenser.solve, h], by simp [Condenser.solve, h]⟩

/-- C7: every read-only result accessor (heat rejection rate, degree of
subcooling, per-region flow length) and the air-side pressure-drop module
fail with `ResultUnavailableError` while the result cache is empty — the
state of a Condenser before any successful solve — and return exactly the
solved values once a successful solve has populated it. -/
theorem accessors_require_solve (m : FluidModel) (c : Condenser) :
    (c.result = none →
      c.Q_dot = .error .resultUnavailable
      ∧ c.dT_sc = .error .resultUnavailable
      ∧ (∀ reg, c.L_flow reg = .error .resultUnavailable)
      ∧ c.air_dP m = .error .resultUnavailable)
    ∧ (∀ r, c.result = some r →
      c.Q_dot = .ok r.Q_dot
      ∧ c.dT_sc = .ok r.dT_sc
      ∧ c.L_flow .desuperheating = .ok r.desuperheating_region.L_flow
      ∧ c.L_flow .condensing = .ok r.condensing_region.L_flow
      ∧ c.L_flow .subcooling = .ok r.subcooling_region.L_flow
      ∧ c.air_dP m = .ok (airDP m c.geometry r)) := by
  constructor
  · intro hn
    refine ⟨?_, ?_, ?_, ?_⟩ <;>
      simp [Condenser.Q_dot, Condenser.dT_sc, Condenser.L_flow,
        Condenser.air_dP, hn]
  · intro r hr
    refine ⟨?_, ?_, ?_, ?_, ?_, ?_⟩ <;>
      simp [Condenser.Q_dot, Condenser.dT_sc, Condenser.L_flow,
        Condenser.air_dP, hr]

/-- C7 witness: a Condenser with an empty cache rejects every accessor,
and the demonstration result is served back verbatim once cached. -/
theorem accessors_require_solve_witness :
    (Condenser.Q_dot ⟨demoGeom, none⟩ = .error .resultUnavailable
      ∧ Condenser.dT_sc ⟨demoGeom, none⟩ = .error .resultUnavailable
      ∧ (∀ reg, Condenser.L_flow ⟨demoGeom, none⟩ reg
          = .error .resultUnavailable)
      ∧ Condenser.air_dP ⟨demoGeom, none⟩ demoModel
          = .error .resultUnavailable)
    ∧ (Condenser.Q_dot ⟨demoGeom, some demoResult⟩ = .ok demoResult.Q_dot
      ∧ Condenser.dT_sc ⟨demoGeom, some demoResult⟩ = .ok demoResult.dT_sc
      ∧ Condenser.L_flow ⟨demoGeom, some demoResult⟩ .desuperheating
          = .ok demoResult.desuperheating_region.L_flow
      ∧ Condenser.L_flow ⟨demoGeom, some demoResult⟩ .condensing
          = .ok demoResult.condensing_region.L_flow
      ∧ Condenser.L_flow ⟨demoGeom, some demoResult⟩ .subcooling
          = .ok demoResult.subcooling_region.L_flow
      ∧ Condenser.air_dP ⟨demoGeom, some demoResult⟩ demoModel
          = .ok (airDP demoModel demoGeom demoResult)) :=
  ⟨(accessors_require_solve demoModel ⟨demoGeom, none⟩).1 rfl,
   (accessors_require_solve demoModel ⟨demoGeom, some demoResult⟩).2
     demoResult rfl⟩

/-- C8: construction validates exactly the geometry invariants (all
lengths strictly positive, at least one row, fin pitch strictly above the
fin thickness), failing with `InvalidGeometryError` precisely when one is
violated; and the geometry a Condenser holds is immutable — in particular
`solve`, the only mutating operation, never changes it. -/
theorem construction_validates (g : Geometry) :
    (mkCondenser g = .ok ⟨g, none⟩ ↔ g.valid)
    ∧ (mkCondenser g = .error .invalidGeometry ↔ ¬g.valid)
    ∧ (∀ c, mkCondenser g = .ok c → c.geometry = g)
    ∧ (∀ (m : FluidModel) (tol : ℚ) (fuel : ℕ) (c : Condenser)
        (inp : SolveInput),
        ((Condenser.solve m tol fuel c inp).2).geometry = c.geometry) := by
  refine ⟨?_, ?_, ?_, ?_⟩
  · by_cases hv : g.valid <;> simp [mkCondenser, hv]
  · by_cases hv : g.valid <;> simp [mkCondenser, hv]
  · intro c hc
    by_cases hv : g.valid <;> simp [mkCondenser, hv] at hc
    rw [← hc]
  · intro m tol fuel c inp
    unfold Condenser.solve
    cases solveCore m c.geometry tol fuel inp <;> simp

/-- C8 witness: the demonstration geometry satisfies the invariants and
constructs successfully. -/
theorem construction_validates_witness :
    mkCondenser demoGeom = .ok ⟨demoGeom, none⟩ :=
  (construction_validates demoGeom).1.mpr (by with_unfolding_all decide)

/-- C10: the solver always terminates explicitly — its root-finding loop
is bounded by the iteration budget, so every call returns either a result
meeting the success criteria of §4.3 step 4 (length residual within
tolerance, all three region lengths non-negative, refrigerant leaving
subcooled) or an explicit error; and on the demonstration scenario,
which succeeds with five rows, reducing the row count to one makes the
solver fail with `RatingInfeasibleError` instead of returning a truncated
result. -/
theorem solve_terminates_explicitly :
    (∀ (m : FluidModel) (g : Geometry) (tol : ℚ) (fuel : ℕ)
        (inp : SolveInput),
      (∃ r, solveCore m g tol fuel inp = .ok r
        ∧ rabs (r.desuperheating_region.L_flow + r.condensing_region.L_flow
            + r.subcooling_region.L_flow - L_avail g) ≤ tol
        ∧ 0 ≤ r.desuperheating_region.L_flow
        ∧ 0 ≤ r.condensing_region.L_flow
        ∧ 0 ≤ r.subcooling_region.L_flow
        ∧ r.rfg_out.h < m.h_sat_liq inp.rfg_in.P)
      ∨ (∃ e, solveCore m g tol fuel inp = .error e))
    ∧ solveCore demoModel demoGeom (1 / 4) 40 demoInp = .ok demoResult
    ∧ solveCore demoModel demoGeomOneRow (1 / 4) 40 demoInp
        = .error .ratingInfeasible := by
  refine ⟨?_, demo_solve_ok, by with_unfolding_all rfl⟩
  intro m g tol fuel inp
  cases h : solveCore m g tol fuel inp with
  | error e => exact .inr ⟨e, rfl⟩
  | ok r =>
    obtain ⟨h1, h2, h3⟩ := solveCore_ok_nonneg h
    exact .inl ⟨r, rfl, solveCore_ok_tol h, h1, h2, h3, solveCore_ok_subcooled h⟩

end Hvac
